import Mathlib

/-!
Shallow embedding of the `basis-universal-transcoder` wrapper
(`src/packages/basis-universal-transcoder/src/transcoder.ts` and
`src/packages/basis-universal-transcoder/src/index.ts`).

The native (WASM) side is opaque: every native entry point the wrapper calls
is modelled as an oracle field of `BasisModuleFuncs`.  Stateful native calls
(malloc, free, transcoder creation/deletion, init, start, level-info fill,
transcode) are additionally recorded in a call log carried by the session
state, so that theorems can talk about which native calls a wrapper method
actually issued.  Pure native queries (size computation, format predicates)
are modelled as pure oracle reads and are not logged.

JavaScript numbers are modelled as `Nat` where the source only ever holds
sizes/pointers/indices, as `Int` where the source passes possibly-negative
values (the `-1` channel arguments, enum tags, decode flags), and as `ℚ` for
the one value produced by a JavaScript division (`outputSize / bytesPerBlock`).
The WASM heap is a byte map `Nat → Nat`.  Exceptions thrown by the wrapper
(`throw new Error(...)`) are modelled with `Except String`.
-/

/-- Arguments of the native `ktx2_transcoder_transcode_image_level` entry
point, field names following the stub declaration in `index.ts`. -/
structure TranscodeArgs where
  transcoderPtr : Nat
  levelIndex : Nat
  layerIndex : Nat
  faceIndex : Nat
  outputBlocksPtr : Nat
  outputBlocksBufSizeInBlocksOrPixels : ℚ
  fmt : Int
  decodeFlags : Int
  outputRowPitchInBlocksOrPixels : Nat
  outputRowsInPixels : Nat
  channel0 : Int
  channel1 : Int
  statePtr : Nat
deriving DecidableEq

/-- One stateful native call issued by the wrapper, as recorded in the
session's call log. -/
inductive NativeCall where
  | mallocCall (size : Nat) (ret : Nat)
  | freeCall (ptr : Nat)
  | ktx2NewCall (ret : Nat)
  | ktx2DeleteCall (ptr : Nat)
  | ktx2InitCall (transcoderPtr dataPtr dataSize : Nat) (ok : Bool)
  | startTranscodingCall (transcoderPtr : Nat) (ok : Bool)
  | getImageLevelInfoCall (transcoderPtr levelInfoPtr levelIndex layerIndex faceIndex : Nat) (ok : Bool)
  | transcodeCall (args : TranscodeArgs) (ok : Bool)
deriving DecidableEq

/-- Oracle view of the native module: the results the native entry points
return to the wrapper (and, for the level-info fill and the transcode, the
bytes the native side writes into caller-owned memory).  Mirrors the
`BasisModuleFuncs` record of `index.ts`; `malloc`/`free` are modelled
directly in the session step functions (fresh-address bump allocation). -/
structure BasisModuleFuncs where
  ktx2_transcoder_new : Nat
  ktx2_transcoder_init : Nat → Nat → Nat → Bool
  ktx2_transcoder_start_transcoding : Nat → Bool
  ktx2_transcoder_get_image_level_info : Nat → Nat → Nat → Nat → Nat → Bool
  /-- The fourteen 32-bit words the native side stores into the
  image-level-info struct on a successful fill for (level, layer, face). -/
  levelInfoWords : Nat → Nat → Nat → Fin 14 → Nat
  basis_compute_transcoded_image_size_in_bytes : Int → Nat → Nat → Nat
  basis_transcoder_format_is_uncompressed : Int → Bool
  basis_get_bytes_per_block_or_pixel : Int → Nat
  ktx2_transcoder_transcode_image_level : TranscodeArgs → Bool
  /-- Byte `i` of the output image a successful native transcode writes at
  `outputBlocksPtr + i`. -/
  transcodeOutputByte : TranscodeArgs → Nat → Nat

/-- Size in bytes of the `ktx2_header` struct: 12-byte identifier, thirteen
4-byte packed fields, two 8-byte packed fields (`transcoder.ts`). -/
def KTX2HeaderSize : Nat := 12 + 4 * 13 + 8 * 2

/-- Element count of the `Uint32Array` view laid over the header
(`new Uint32Array(buffer, ptr, KTX2HeaderSize / 4)`). -/
def KTX2Header.viewLength : Nat := KTX2HeaderSize / 4

/-- Size in bytes of the `ktx2_image_level_info` struct buffer allocated by
the `KTX2ImageLevelInfo` constructor (`const structSize = 12 * 4 + 2 * 4`). -/
def KTX2ImageLevelInfo.structSize : Nat := 12 * 4 + 2 * 4

/-- Element count of the `Uint32Array` view over the image-level-info buffer
(`structSize / 4`). -/
def KTX2ImageLevelInfo.viewLength : Nat := KTX2ImageLevelInfo.structSize / 4

/-- Read-only projection of the image-level-info buffer: the fourteen 32-bit
words of the `Uint32Array` view. -/
structure KTX2ImageLevelInfo where
  words : Fin 14 → Nat

def KTX2ImageLevelInfo.levelIndex (v : KTX2ImageLevelInfo) : Nat := v.words 0

def KTX2ImageLevelInfo.layerIndex (v : KTX2ImageLevelInfo) : Nat := v.words 1

def KTX2ImageLevelInfo.faceIndex (v : KTX2ImageLevelInfo) : Nat := v.words 2

def KTX2ImageLevelInfo.origWidth (v : KTX2ImageLevelInfo) : Nat := v.words 3

def KTX2ImageLevelInfo.origHeight (v : KTX2ImageLevelInfo) : Nat := v.words 4

def KTX2ImageLevelInfo.width (v : KTX2ImageLevelInfo) : Nat := v.words 5

def KTX2ImageLevelInfo.height (v : KTX2ImageLevelInfo) : Nat := v.words 6

def KTX2ImageLevelInfo.numBlocksX (v : KTX2ImageLevelInfo) : Nat := v.words 7

def KTX2ImageLevelInfo.numBlocksY (v : KTX2ImageLevelInfo) : Nat := v.words 8

def KTX2ImageLevelInfo.blockWidth (v : KTX2ImageLevelInfo) : Nat := v.words 9

def KTX2ImageLevelInfo.blockHeight (v : KTX2ImageLevelInfo) : Nat := v.words 10

def KTX2ImageLevelInfo.totalBlocks (v : KTX2ImageLevelInfo) : Nat := v.words 11

/-- Source: `get alphaFlag(): boolean \x7b return this.dataView[12] !== 0; \x7d` -/
def KTX2ImageLevelInfo.alphaFlag (v : KTX2ImageLevelInfo) : Bool := v.words 12 != 0

/-- Source: `get iframeFlag(): boolean \x7b return this.dataView[13] !== 0; \x7d` -/
def KTX2ImageLevelInfo.iframeFlag (v : KTX2ImageLevelInfo) : Bool := v.words 13 != 0

/-- Mutable state of one `KTX2Transcoder` session, plus the model's view of
the WASM heap, a bump allocator cursor for fresh native addresses, and the
log of stateful native calls issued so far.

`iliPtr`/`iliWords` model the single `KTX2ImageLevelInfo` buffer owned by the
session (`this.imageLevelInfo`): the native address of its backing store and
the fourteen words currently in it. -/
structure Session where
  transcoderPtr : Nat
  inputMemPtr : Nat
  inputMemSize : Nat
  outputMemPtr : Nat
  outputMemSize : Nat
  initialized : Bool
  disposed : Bool
  iliPtr : Nat
  iliWords : Fin 14 → Nat
  heap : Nat → Nat
  nextAddr : Nat
  calls : List NativeCall
deriving Inhabited

/-- Append one native call to the session's log. -/
def logCall (s : Session) (c : NativeCall) : Session :=
  { s with calls := s.calls ++ [c] }

/-- Model of `funcs.free(ptr)`: purely an effect, recorded in the log. -/
def callFree (s : Session) (ptr : Nat) : Session :=
  logCall s (NativeCall.freeCall ptr)

/-- Model of `funcs.malloc(size)`: a fresh address from the bump cursor;
the allocation is recorded in the log. -/
def callMalloc (s : Session) (size : Nat) : Nat × Session :=
  (s.nextAddr,
    { s with
        nextAddr := s.nextAddr + size
        calls := s.calls ++ [NativeCall.mallocCall size s.nextAddr] })

/-- Overwrite `data.length` heap bytes starting at `base` with `data`
(model of `heap.subarray(base, base + data.length).set(data)`). -/
def writeBytes (heap : Nat → Nat) (base : Nat) (data : List Nat) : Nat → Nat :=
  fun a =>
    if base ≤ a ∧ a < base + data.length then data.getD (a - base) 0 else heap a

/-- Overwrite `len` heap bytes starting at `base` with bytes drawn from
`byte` (model of a native-side write into caller-owned memory). -/
def nativeWrite (heap : Nat → Nat) (base len : Nat) (byte : Nat → Nat) : Nat → Nat :=
  fun a => if base ≤ a ∧ a < base + len then byte (a - base) else heap a

/-- Message of the error thrown by `checkInitialized()`. -/
def notInitializedMessage : String :=
  "KTX2 transcoder not initialized. Call init() with KTX2 data first."

/-- Message of the error thrown by `checkDisposed()`. -/
def disposedMessage : String :=
  "KTX2 transcoder already disposed."

/-- Model of the `KTX2Transcoder` constructor: native handle from
`funcs.ktx2_transcoder_new()`, then the `KTX2ImageLevelInfo` constructor
mallocs its 56-byte struct buffer.  The model allocator starts at address 1
so that allocated pointers are distinguishable from the null pointer 0. -/
def KTX2Transcoder.new (env : BasisModuleFuncs) : Session :=
  { transcoderPtr := env.ktx2_transcoder_new
    inputMemPtr := 0
    inputMemSize := 0
    outputMemPtr := 0
    outputMemSize := 0
    initialized := false
    disposed := false
    iliPtr := 1
    iliWords := fun _ => 0
    heap := fun _ => 0
    nextAddr := 1 + KTX2ImageLevelInfo.structSize
    calls := [NativeCall.ktx2NewCall env.ktx2_transcoder_new,
              NativeCall.mallocCall KTX2ImageLevelInfo.structSize 1] }

/-- Model of `KTX2ImageLevelInfo.fill`: calls the native
`ktx2_transcoder_get_image_level_info` with the session's level-info buffer
address; on native success the buffer words are overwritten by the native
side (oracle `levelInfoWords`). -/
def KTX2ImageLevelInfo.fill (env : BasisModuleFuncs) (s : Session)
    (level_index layer_index face_index : Nat) : Bool × Session :=
  let ok := env.ktx2_transcoder_get_image_level_info s.transcoderPtr s.iliPtr
    level_index layer_index face_index
  let s := logCall s (NativeCall.getImageLevelInfoCall s.transcoderPtr s.iliPtr
    level_index layer_index face_index ok)
  if ok then
    (ok, { s with iliWords := env.levelInfoWords level_index layer_index face_index })
  else
    (ok, s)

/-- Model of `KTX2Transcoder.init(data)`. -/
def KTX2Transcoder.init (env : BasisModuleFuncs) (s : Session) (data : List Nat) :
    Except String (Bool × Session) :=
  if s.disposed then Except.error disposedMessage
  else
    -- free output
    let s := callFree s s.outputMemPtr
    let s := { s with outputMemPtr := 0, outputMemSize := 0 }
    -- Allocate memory
    let s :=
      if s.inputMemSize < data.length then
        let s := callFree s s.inputMemPtr
        let m := callMalloc s data.length
        { m.2 with inputMemPtr := m.1, inputMemSize := data.length }
      else s
    -- Copy data
    let s := { s with heap := writeBytes s.heap s.inputMemPtr data }
    -- Initialize the transcoder
    let success := env.ktx2_transcoder_init s.transcoderPtr s.inputMemPtr data.length
    let s := logCall s (NativeCall.ktx2InitCall s.transcoderPtr s.inputMemPtr
      data.length success)
    let s := { s with initialized := success }
    Except.ok (success, s)

/-- Model of `KTX2Transcoder.startTranscoding()`.  Note the wrapper does not
record the result anywhere in its own state. -/
def KTX2Transcoder.startTranscoding (env : BasisModuleFuncs) (s : Session) :
    Except String (Bool × Session) :=
  if s.disposed then Except.error disposedMessage
  else if !s.initialized then Except.error notInitializedMessage
  else
    let ok := env.ktx2_transcoder_start_transcoding s.transcoderPtr
    Except.ok (ok, logCall s (NativeCall.startTranscodingCall s.transcoderPtr ok))

/-- Model of `KTX2Transcoder.getImageLevelInfo(level, layer, face)`. -/
def KTX2Transcoder.getImageLevelInfo (env : BasisModuleFuncs) (s : Session)
    (levelIndex layerIndex faceIndex : Nat) :
    Except String (Option KTX2ImageLevelInfo × Session) :=
  if s.disposed then Except.error disposedMessage
  else if !s.initialized then Except.error notInitializedMessage
  else
    let r := KTX2ImageLevelInfo.fill env s levelIndex layerIndex faceIndex
    if !r.1 then Except.ok (none, r.2)
    else Except.ok (some ⟨r.2.iliWords⟩, r.2)

/-- Transcode options (`types.ts`); the wrapper destructures them with
defaults `level = 0`, `layer = 0`, `face = 0`, `decodeFlags = 0`. -/
structure TranscodeOptions where
  format : Int
  level : Nat := 0
  layer : Nat := 0
  face : Nat := 0
  decodeFlags : Int := 0

/-- Transcode result: `data` is the wrapper's `heap.subarray(outputMemPtr,
outputMemPtr + outputSize)` view, modelled as the list of the viewed heap
bytes. -/
structure TranscodeResult where
  data : List Nat
  width : Nat
  height : Nat
deriving Inhabited

/-- Model of `KTX2Transcoder.transcodeImageLevel(options)`. -/
def KTX2Transcoder.transcodeImageLevel (env : BasisModuleFuncs) (s : Session)
    (options : TranscodeOptions) :
    Except String (Option TranscodeResult × Session) :=
  if s.disposed then Except.error disposedMessage
  else if !s.initialized then Except.error notInitializedMessage
  else
    let level := options.level
    let layer := options.layer
    let face := options.face
    let fillR := KTX2ImageLevelInfo.fill env s level layer face
    if !fillR.1 then Except.ok (none, fillR.2)
    else
      let s := fillR.2
      let origWidth := s.iliWords 3
      let origHeight := s.iliWords 4
      -- Calculate output size
      let outputSize := env.basis_compute_transcoded_image_size_in_bytes
        options.format origWidth origHeight
      -- Allocate output buffer
      let s :=
        if s.outputMemSize < outputSize then
          let s := callFree s s.outputMemPtr
          let m := callMalloc s outputSize
          { m.2 with outputMemPtr := m.1, outputMemSize := outputSize }
        else s
      let uncompressed := env.basis_transcoder_format_is_uncompressed options.format
      let args : TranscodeArgs :=
        if uncompressed then
          { transcoderPtr := s.transcoderPtr
            levelIndex := level, layerIndex := layer, faceIndex := face
            outputBlocksPtr := s.outputMemPtr
            outputBlocksBufSizeInBlocksOrPixels := (origWidth : ℚ) * (origHeight : ℚ)
            fmt := options.format
            decodeFlags := options.decodeFlags
            outputRowPitchInBlocksOrPixels := origWidth
            outputRowsInPixels := origHeight
            channel0 := -1, channel1 := -1, statePtr := 0 }
        else
          let bytesPerBlock := env.basis_get_bytes_per_block_or_pixel options.format
          { transcoderPtr := s.transcoderPtr
            levelIndex := level, layerIndex := layer, faceIndex := face
            outputBlocksPtr := s.outputMemPtr
            outputBlocksBufSizeInBlocksOrPixels := (outputSize : ℚ) / (bytesPerBlock : ℚ)
            fmt := options.format
            decodeFlags := options.decodeFlags
            outputRowPitchInBlocksOrPixels := 0
            outputRowsInPixels := 0
            channel0 := -1, channel1 := -1, statePtr := 0 }
      -- Transcode
      let success := env.ktx2_transcoder_transcode_image_level args
      let s := logCall s (NativeCall.transcodeCall args success)
      if !success then Except.ok (none, s)
      else
        let outPtr := s.outputMemPtr
        let s := { s with
          heap := nativeWrite s.heap outPtr outputSize (env.transcodeOutputByte args) }
        Except.ok (some
          { data := (List.range outputSize).map (fun i => s.heap (outPtr + i))
            width := origWidth
            height := origHeight }, s)

/-- Model of `KTX2Transcoder.dispose()`. -/
def KTX2Transcoder.dispose (env : BasisModuleFuncs) (s : Session) :
    Except String (Unit × Session) :=
  if s.disposed then Except.ok ((), s)
  else
    let s :=
      if s.transcoderPtr != 0 then
        let s := logCall s (NativeCall.ktx2DeleteCall s.transcoderPtr)
        { s with transcoderPtr := 0 }
      else s
    let s := callFree s s.inputMemPtr
    let s := { s with inputMemPtr := 0, inputMemSize := 0 }
    let s := callFree s s.outputMemPtr
    let s := { s with outputMemPtr := 0, outputMemSize := 0 }
    let s := { s with initialized := false }
    -- this.imageLevelInfo.dispose(): funcs.free(this.dataView.byteOffset)
    let s := callFree s s.iliPtr
    Except.ok ((), { s with disposed := true })

/-- Native calls issued during a wrapper call that took the session from
`s` to `s'` (the log is append-only). -/
def newCalls (s s' : Session) : List NativeCall :=
  s'.calls.drop s.calls.length

/-- Sizes of the allocations among a list of native calls. -/
def mallocSizes (l : List NativeCall) : List Nat :=
  l.filterMap fun c =>
    match c with
    | NativeCall.mallocCall size _ => some size
    | _ => none

/-- Argument records of the native transcode invocations among a list of
native calls. -/
def transcodeArgList (l : List NativeCall) : List TranscodeArgs :=
  l.filterMap fun c =>
    match c with
    | NativeCall.transcodeCall a _ => some a
    | _ => none

/-- Number of native `ktx2_transcoder_start_transcoding` invocations among a
list of native calls. -/
def startCallCount (l : List NativeCall) : Nat :=
  (l.filter fun c =>
    match c with
    | NativeCall.startTranscodingCall _ _ => true
    | _ => false).length

/-!
Binding-table construction (`index.ts`): `BasisFuncProtos` is a declarative
map from native entry-point name to a stub whose declared parameter count
gives the arity and whose sentinel result (obtained by invoking the stub
with no arguments) tags the return kind.
-/

/-- A JavaScript value as far as `getProtoReturnType` can observe it. -/
inductive JSVal where
  | vBool (b : Bool)
  | vNum (n : Int)
  | vUndefined
  | vOther (tag : String)
deriving DecidableEq

/-- The three return kinds `module.cwrap` is given. -/
inductive RetKind where
  | boolean
  | number
  | voidKind
deriving DecidableEq

/-- Model of `getProtoReturnType`: `v === false` → boolean, `v === 0` →
number, `v === void 0` → void, anything else throws
(`new Error(...)`, message "Unknown return type"). -/
def getProtoReturnType (v : JSVal) : Except String RetKind :=
  if v = JSVal.vBool false then Except.ok RetKind.boolean
  else if v = JSVal.vNum 0 then Except.ok RetKind.number
  else if v = JSVal.vUndefined then Except.ok RetKind.voidKind
  else Except.error "Unknown return type"

/-- One entry of the declarative prototype table: the key, the stub's
declared parameter count (`func.length`), and the stub itself. -/
structure Proto where
  name : String
  arity : Nat
  stub : Unit → JSVal

/-- Model of `numberArgTypes(count)`:
`Array.from(\x7blength: count\x7d, () => 'number')`. -/
def numberArgTypes (count : Nat) : List String :=
  List.replicate count "number"

/-- One produced binding: what `module.cwrap(key, returnType, argTypes)` is
called with. -/
structure Binding where
  name : String
  returnType : RetKind
  argTypes : List String
deriving DecidableEq

/-- Model of the `Object.entries(BasisFuncProtos).reduce(...)` loop of
`getAllBasisFuncs`: each entry's stub is invoked once (in table order) to
obtain its sentinel; an unrecognized sentinel propagates the thrown error and
aborts construction.  Besides the binding list the model returns the log of
stub invocations (names in invocation order), so that theorems can state that
each declared stub is invoked exactly once. -/
def getAllBasisFuncs : List Proto → Except String (List Binding × List String)
  | [] => Except.ok ([], [])
  | p :: rest =>
    let v := p.stub ()
    match getProtoReturnType v with
    | Except.error e => Except.error e
    | Except.ok rt =>
      match getAllBasisFuncs rest with
      | Except.error e => Except.error e
      | Except.ok tl =>
        Except.ok (⟨p.name, rt, numberArgTypes p.arity⟩ :: tl.1, p.name :: tl.2)

/-- The declarative prototype table of `index.ts`, in declaration order: each
stub's arity is its declared parameter count and its body returns the
sentinel of its return kind. -/
def BasisFuncProtos : List Proto :=
  [⟨"basisu_transcoder_init", 0, fun _ => JSVal.vUndefined⟩,
   ⟨"basis_transcoder_format_has_alpha", 1, fun _ => JSVal.vBool false⟩,
   ⟨"basis_transcoder_format_is_hdr", 1, fun _ => JSVal.vBool false⟩,
   ⟨"basis_transcoder_format_is_uncompressed", 1, fun _ => JSVal.vBool false⟩,
   ⟨"basis_get_bytes_per_block_or_pixel", 1, fun _ => JSVal.vNum 0⟩,
   ⟨"basis_compute_transcoded_image_size_in_bytes", 3, fun _ => JSVal.vNum 0⟩,
   ⟨"ktx2_transcoder_new", 0, fun _ => JSVal.vNum 0⟩,
   ⟨"ktx2_transcoder_delete", 1, fun _ => JSVal.vUndefined⟩,
   ⟨"ktx2_transcoder_init", 3, fun _ => JSVal.vBool false⟩,
   ⟨"ktx2_transcoder_get_header", 1, fun _ => JSVal.vNum 0⟩,
   ⟨"ktx2_transcoder_get_basis_texture_format", 1, fun _ => JSVal.vNum 0⟩,
   ⟨"ktx2_transcoder_start_transcoding", 1, fun _ => JSVal.vBool false⟩,
   ⟨"ktx2_transcoder_get_image_level_info", 5, fun _ => JSVal.vBool false⟩,
   ⟨"ktx2_transcoder_transcode_image_level", 13, fun _ => JSVal.vBool false⟩]

/-!
Module-singleton model (`BasisUniversal.getInstance` in `index.ts`).

The method body is
```
if (BasisUniversal.instance) return BasisUniversal.instance;
const module = await basis_capi_transcoder_js(...);
const inst = new BasisUniversal(module);
BasisUniversal.instance = inst;
return inst;
```
It is split at its single `await` point into two atomic phases per caller:
`check` (the cache test followed, on a miss, by beginning a fresh module
instantiation) and `complete` (the resumption: construct the instance,
unconditionally overwrite the static `instance` field, return).  Each begun
instantiation produces a distinct instance, identified by the value of the
instantiation counter when it began.  A schedule (list of events) fixes the
interleaving of the callers' phases.
-/

/-- Where one `getInstance` caller stands. -/
inductive CallerPhase where
  | idle
  | pending (instId : Nat)
  | done (ret : Nat)
deriving DecidableEq

/-- Process-wide state of the singleton model: the static `instance` field,
the number of module instantiations begun, and each caller's phase. -/
structure ModuleState where
  instCache : Option Nat
  started : Nat
  callers : Nat → CallerPhase

/-- Nobody has called `getInstance` yet. -/
def ModuleState.initial : ModuleState :=
  { instCache := none, started := 0, callers := fun _ => CallerPhase.idle }

/-- Scheduler events: caller `c` runs its check phase / its completion. -/
inductive Ev where
  | check (c : Nat)
  | complete (c : Nat)

/-- One scheduler step of the singleton model. -/
def ModuleState.step (st : ModuleState) (e : Ev) : ModuleState :=
  match e with
  | Ev.check c =>
    match st.callers c with
    | CallerPhase.idle =>
      match st.instCache with
      | some i =>
        { st with callers := fun x => if x = c then CallerPhase.done i else st.callers x }
      | none =>
        { st with
            started := st.started + 1
            callers := fun x =>
              if x = c then CallerPhase.pending st.started else st.callers x }
    | _ => st
  | Ev.complete c =>
    match st.callers c with
    | CallerPhase.pending i =>
      { st with
          instCache := some i
          callers := fun x => if x = c then CallerPhase.done i else st.callers x }
    | _ => st

/-- Run a schedule from a state. -/
def ModuleState.run (st : ModuleState) (sched : List Ev) : ModuleState :=
  sched.foldl ModuleState.step st

/-- Schedule of the overlapping-callers race: caller 1 runs its cache check
while caller 0's module instantiation is still in flight. -/
def overlapSched : List Ev :=
  [Ev.check 0, Ev.check 1, Ev.complete 0, Ev.complete 1]

/-- Output size the wrapper computes in `transcodeImageLevel` after a
successful level-info fill: the native size oracle applied to the format and
the filled `origWidth`/`origHeight` words. -/
def computedOutputSize (env : BasisModuleFuncs) (o : TranscodeOptions) : Nat :=
  env.basis_compute_transcoded_image_size_in_bytes o.format
    (env.levelInfoWords o.level o.layer o.face 3)
    (env.levelInfoWords o.level o.layer o.face 4)

/-- Session of a (possibly failed) wrapper call returning a `Bool`. -/
def sessionAfter (r : Except String (Bool × Session)) : Session :=
  match r with
  | Except.ok p => p.2
  | Except.error _ => default

/-- Session of a (possibly failed) `transcodeImageLevel` call. -/
def sessionAfterT (r : Except String (Option TranscodeResult × Session)) : Session :=
  match r with
  | Except.ok p => p.2
  | Except.error _ => default

/-- Result of a successful `transcodeImageLevel` call. -/
def resultAfterT (r : Except String (Option TranscodeResult × Session)) : TranscodeResult :=
  match r with
  | Except.ok (some res, _) => res
  | _ => default

/-- Concrete oracle used by witnesses and counterexamples: native init
succeeds unless the data is a single byte; level-info fill always succeeds
and reports a 10×10 image at level 0 and a 5×5 image elsewhere; the output
size is width×height bytes; the format is compressed at 8 bytes per block;
start and transcode always succeed. -/
def envW : BasisModuleFuncs :=
  { ktx2_transcoder_new := 7
    ktx2_transcoder_init := fun _ _ n => n != 1
    ktx2_transcoder_start_transcoding := fun _ => true
    ktx2_transcoder_get_image_level_info := fun _ _ _ _ _ => true
    levelInfoWords := fun level _ _ i =>
      if i = 3 ∨ i = 4 then (if level = 0 then 10 else 5) else 1
    basis_compute_transcoded_image_size_in_bytes := fun _ w h => w * h
    basis_transcoder_format_is_uncompressed := fun _ => false
    basis_get_bytes_per_block_or_pixel := fun _ => 8
    ktx2_transcoder_transcode_image_level := fun _ => true
    transcodeOutputByte := fun _ _ => 0 }

/-- Fresh session successfully initialized with three bytes of data (the
`envW` init oracle accepts any data that is not a single byte). -/
def sInit : Session :=
  sessionAfter (KTX2Transcoder.init envW (KTX2Transcoder.new envW) [1, 2, 3])

/-- A `transcodeImageLevel` call on `sInit` with no `startTranscoding` call
ever issued (level 0, so a 100-byte output). -/
def c1Out : Except String (Option TranscodeResult × Session) :=
  KTX2Transcoder.transcodeImageLevel envW sInit { format := 13 }

/-- Second consecutive transcode call (level 1, so a 25-byte output). -/
def c5Out2 : Except String (Option TranscodeResult × Session) :=
  KTX2Transcoder.transcodeImageLevel envW (sessionAfterT c1Out) { format := 13, level := 1 }

/-- Session with `initialized = true` obtained by a successful init, then
re-initialized with a single byte, which the `envW` init oracle rejects. -/
def c2Out : Except String (Bool × Session) :=
  KTX2Transcoder.init envW sInit [9]

/-- Specification mirror of the argument record `transcodeImageLevel` hands
to the native transcode entry point, written out as a function of the
pre-call session and the options; the theorems below prove the embedded
method issues exactly this record. -/
def expectedArgs (env : BasisModuleFuncs) (s : Session) (o : TranscodeOptions) : TranscodeArgs :=
  let origWidth := env.levelInfoWords o.level o.layer o.face 3
  let origHeight := env.levelInfoWords o.level o.layer o.face 4
  let outputSize := env.basis_compute_transcoded_image_size_in_bytes o.format origWidth origHeight
  let outPtr := if s.outputMemSize < outputSize then s.nextAddr else s.outputMemPtr
  let bytesPerBlock := env.basis_get_bytes_per_block_or_pixel o.format
  if env.basis_transcoder_format_is_uncompressed o.format then
    { transcoderPtr := s.transcoderPtr
      levelIndex := o.level, layerIndex := o.layer, faceIndex := o.face
      outputBlocksPtr := outPtr
      outputBlocksBufSizeInBlocksOrPixels := (origWidth : ℚ) * (origHeight : ℚ)
      fmt := o.format, decodeFlags := o.decodeFlags
      outputRowPitchInBlocksOrPixels := origWidth
      outputRowsInPixels := origHeight
      channel0 := -1, channel1 := -1, statePtr := 0 }
  else
    { transcoderPtr := s.transcoderPtr
      levelIndex := o.level, layerIndex := o.layer, faceIndex := o.face
      outputBlocksPtr := outPtr
      outputBlocksBufSizeInBlocksOrPixels := (outputSize : ℚ) / (bytesPerBlock : ℚ)
      fmt := o.format, decodeFlags := o.decodeFlags
      outputRowPitchInBlocksOrPixels := 0
      outputRowsInPixels := 0
      channel0 := -1, channel1 := -1, statePtr := 0 }

/-!
Claim theorems.
-/

/-- C3 counterexample: the KTX2 header view does not cover 52 bytes, and its
size is not 12-byte identifier + 10 four-byte fields + 2 eight-byte fields:
the source constant is `12 + 4 * 13 + 8 * 2 = 80`. -/
theorem C3_counterexample :
    KTX2HeaderSize ≠ 52 ∧ KTX2HeaderSize ≠ 12 + 10 * 4 + 2 * 8 := by
  decide

/-- C3 (amended): the KTX2 header view covers 80 bytes — a 12-byte
identifier plus thirteen 4-byte fields plus two 8-byte fields — read through
a 20-word 32-bit view; the image-level-info buffer covers fourteen 4-byte
fields (56 bytes), and its last two fields decode the 0/1 boolean encoding
(0 → false, 1 → true). -/
theorem C3_struct_layout :
    KTX2HeaderSize = 80 ∧
    KTX2HeaderSize = 12 + 13 * 4 + 2 * 8 ∧
    KTX2Header.viewLength = 20 ∧
    KTX2ImageLevelInfo.structSize = 14 * 4 ∧
    KTX2ImageLevelInfo.structSize = 56 ∧
    KTX2ImageLevelInfo.viewLength = 14 ∧
    KTX2ImageLevelInfo.alphaFlag ⟨fun _ => 0⟩ = false ∧
    KTX2ImageLevelInfo.alphaFlag ⟨fun _ => 1⟩ = true ∧
    KTX2ImageLevelInfo.iframeFlag ⟨fun _ => 0⟩ = false ∧
    KTX2ImageLevelInfo.iframeFlag ⟨fun _ => 1⟩ = true := by
  refine ⟨rfl, rfl, rfl, rfl, rfl, rfl, ?_, ?_, ?_, ?_⟩ <;> decide

/-- C8: `dispose()` is idempotent: the first call yields a terminally
disposed session and never errors; a second call returns the very same
session unchanged (same native-call log, so no native handle, arena or
level-info buffer is freed a second time) and produces no error. -/
theorem C8_dispose_idempotent (env : BasisModuleFuncs) (s : Session) :
    ∃ s1, KTX2Transcoder.dispose env s = Except.ok ((), s1) ∧
      s1.disposed = true ∧
      KTX2Transcoder.dispose env s1 = Except.ok ((), s1) := by
  by_cases h : s.disposed
  · exact ⟨s, by simp [KTX2Transcoder.dispose, h], h, by simp [KTX2Transcoder.dispose, h]⟩
  · simp only [Bool.not_eq_true] at h
    simp only [KTX2Transcoder.dispose, h, Bool.false_eq_true, if_false]
    exact ⟨_, rfl, rfl, rfl⟩

/-- C9: during binding-table construction each declared stub is invoked once
(the invocation log of a successful construction lists each declared name
exactly once, in declaration order); each binding's return kind comes from
the sentinel via the exhaustive rule `false`→boolean, `0`→number,
`undefined`→void, and its argument types are `"number"` repeated the stub's
declared parameter count; a stub whose sentinel is any other value makes the
whole construction throw, so no binding table is produced; and the table
declared in the source constructs successfully. -/
theorem C9_binding_construction :
    (getProtoReturnType (JSVal.vBool false) = Except.ok RetKind.boolean ∧
     getProtoReturnType (JSVal.vNum 0) = Except.ok RetKind.number ∧
     getProtoReturnType JSVal.vUndefined = Except.ok RetKind.voidKind) ∧
    (∀ v : JSVal, v ≠ JSVal.vBool false → v ≠ JSVal.vNum 0 → v ≠ JSVal.vUndefined →
       getProtoReturnType v = Except.error "Unknown return type") ∧
    (∀ protos table log, getAllBasisFuncs protos = Except.ok (table, log) →
       log = protos.map Proto.name ∧
       List.Forall₂ (fun (b : Binding) (p : Proto) =>
         b.name = p.name ∧ b.argTypes = numberArgTypes p.arity ∧
         getProtoReturnType (p.stub ()) = Except.ok b.returnType) table protos) ∧
    (∀ protos (p : Proto), p ∈ protos →
       (∃ e, getProtoReturnType (p.stub ()) = Except.error e) →
       ∃ e, getAllBasisFuncs protos = Except.error e) ∧
    (∃ table log, getAllBasisFuncs BasisFuncProtos = Except.ok (table, log)) := by
  refine ⟨⟨rfl, rfl, rfl⟩, ?_, ?_, ?_, ⟨_, _, rfl⟩⟩
  · intro v h1 h2 h3
    simp [getProtoReturnType, h1, h2, h3]
  · intro protos
    induction protos with
    | nil =>
      intro table log h
      simp only [getAllBasisFuncs] at h
      injection h with h
      injection h with hT hL
      subst hT; subst hL
      exact ⟨rfl, List.Forall₂.nil⟩
    | cons p rest ih =>
      intro table log h
      simp only [getAllBasisFuncs] at h
      cases hrt : getProtoReturnType (p.stub ()) with
      | error e => rw [hrt] at h; cases h
      | ok rt =>
        rw [hrt] at h
        cases hrec : getAllBasisFuncs rest with
        | error e => rw [hrec] at h; cases h
        | ok tl =>
          rw [hrec] at h
          injection h with h
          injection h with hT hL
          subst hT; subst hL
          obtain ⟨ihL, ihF⟩ := ih tl.1 tl.2 (by rw [hrec])
          exact ⟨by simp [ihL], List.Forall₂.cons ⟨rfl, rfl, hrt⟩ ihF⟩
  · intro protos p hmem hbad
    induction protos with
    | nil => cases hmem
    | cons q rest ih =>
      simp only [getAllBasisFuncs]
      rcases List.mem_cons.mp hmem with hq | hrest
      · obtain ⟨e, he⟩ := hbad
        subst hq
        rw [he]
        exact ⟨e, rfl⟩
      · cases hrt : getProtoReturnType (q.stub ()) with
        | error e => exact ⟨e, rfl⟩
        | ok rt =>
          obtain ⟨e, he⟩ := ih hrest
          rw [he]
          exact ⟨e, rfl⟩

/-- C9 witness: the rule and the failure propagation evaluated at concrete
inputs — the sentinel `true` is unrecognized, and a one-entry prototype
table whose stub yields the sentinel `5` fails to construct. -/
theorem C9_binding_construction_witness :
    getProtoReturnType (JSVal.vBool true) = Except.error "Unknown return type" ∧
    ∃ e, getAllBasisFuncs [⟨"probe_fn", 2, fun _ => JSVal.vNum 5⟩] = Except.error e :=
  ⟨C9_binding_construction.2.1 (JSVal.vBool true) (by decide) (by decide) (by decide),
   C9_binding_construction.2.2.2.1 [⟨"probe_fn", 2, fun _ => JSVal.vNum 5⟩]
     ⟨"probe_fn", 2, fun _ => JSVal.vNum 5⟩ (by simp) ⟨"Unknown return type", rfl⟩⟩

/-- C10 counterexample: with a second `getInstance` call issued while the
first call's asynchronous module instantiation is still in flight, the
native module is instantiated twice and the two callers resolve to two
different instances (caller 0 gets instance 0, caller 1 gets instance 1) —
`getInstance` stores only the constructed instance, not the in-flight
promise, so the second check misses the cache. -/
theorem C10_counterexample :
    (ModuleState.initial.run overlapSched).started = 2 ∧
    (ModuleState.initial.run overlapSched).callers 0 = CallerPhase.done 0 ∧
    (ModuleState.initial.run overlapSched).callers 1 = CallerPhase.done 1 := by
  refine ⟨rfl, rfl, rfl⟩

/-- C10 (amended): the Module Singleton is get-or-create only for
non-overlapping calls — a `getInstance` call whose check runs after some
call has completed returns the cached instance without beginning another
module instantiation — but a second call issued while the first call's
instantiation is still in flight begins a second instantiation, and the two
calls resolve to different instances. -/
theorem C10_singleton (st : ModuleState) (c i : Nat)
    (hc : st.callers c = CallerPhase.idle) (hi : st.instCache = some i) :
    ((st.step (Ev.check c)).started = st.started ∧
     (st.step (Ev.check c)).callers c = CallerPhase.done i ∧
     (st.step (Ev.check c)).instCache = st.instCache) ∧
    ((ModuleState.initial.run overlapSched).started = 2 ∧
     (ModuleState.initial.run overlapSched).callers 0 ≠
       (ModuleState.initial.run overlapSched).callers 1) := by
  refine ⟨?_, ⟨rfl, by decide⟩⟩
  simp [ModuleState.step, hc, hi]

/-- C10 witness: after caller 0's call has fully completed, caller 1's later
check returns the cached instance 0 and begins no new instantiation. -/
theorem C10_singleton_witness :
    (((ModuleState.initial.run [Ev.check 0, Ev.complete 0]).step (Ev.check 1)).started =
      (ModuleState.initial.run [Ev.check 0, Ev.complete 0]).started ∧
     ((ModuleState.initial.run [Ev.check 0, Ev.complete 0]).step (Ev.check 1)).callers 1 =
      CallerPhase.done 0 ∧
     ((ModuleState.initial.run [Ev.check 0, Ev.complete 0]).step (Ev.check 1)).instCache =
      (ModuleState.initial.run [Ev.check 0, Ev.complete 0]).instCache) ∧
    ((ModuleState.initial.run overlapSched).started = 2 ∧
     (ModuleState.initial.run overlapSched).callers 0 ≠
       (ModuleState.initial.run overlapSched).callers 1) :=
  C10_singleton (ModuleState.initial.run [Ev.check 0, Ev.complete 0]) 1 0 rfl rfl

/-- Reading back an overwritten byte. -/
lemma writeBytes_read (heap : Nat → Nat) (base : Nat) (data : List Nat) (i : Nat)
    (h : i < data.length) : writeBytes heap base data (base + i) = data.getD i 0 := by
  unfold writeBytes
  rw [if_pos ⟨Nat.le_add_right _ _, by omega⟩, Nat.add_sub_cancel_left]

/-- Full behaviour of `init` on a non-disposed session. -/
lemma init_spec (env : BasisModuleFuncs) (s : Session) (data : List Nat)
    (hd : s.disposed = false) :
    ∃ b s', KTX2Transcoder.init env s data = Except.ok (b, s') ∧
      b = env.ktx2_transcoder_init s.transcoderPtr s'.inputMemPtr data.length ∧
      s'.initialized = b ∧
      s'.disposed = false ∧
      s'.outputMemPtr = 0 ∧ s'.outputMemSize = 0 ∧
      s'.transcoderPtr = s.transcoderPtr ∧ s'.iliPtr = s.iliPtr ∧
      s.inputMemSize ≤ s'.inputMemSize ∧
      s'.inputMemSize = max s.inputMemSize data.length ∧
      mallocSizes (newCalls s s') =
        (if s.inputMemSize < data.length then [data.length] else []) ∧
      (s.inputMemSize < data.length →
        NativeCall.freeCall s.inputMemPtr ∈ newCalls s s') ∧
      (data.length ≤ s.inputMemSize →
        s'.inputMemPtr = s.inputMemPtr ∧ s'.inputMemSize = s.inputMemSize) ∧
      (∀ i, i < data.length → s'.heap (s'.inputMemPtr + i) = data.getD i 0) := by
  simp only [KTX2Transcoder.init, hd, Bool.false_eq_true, if_false, callFree, callMalloc,
    logCall]
  by_cases hlt : s.inputMemSize < data.length
  · rw [if_pos hlt]
    refine ⟨_, _, rfl, rfl, rfl, rfl, rfl, rfl, rfl, rfl, Nat.le_of_lt hlt,
      by dsimp only; omega, ?_, ?_, ?_, ?_⟩
    · rw [if_pos hlt]
      simp [newCalls, mallocSizes, List.append_assoc]
    · intro _
      simp [newCalls, List.append_assoc]
    · intro hle; omega
    · intro i hi
      exact writeBytes_read _ _ _ _ hi
  · rw [if_neg hlt]
    refine ⟨_, _, rfl, rfl, rfl, rfl, rfl, rfl, rfl, rfl, Nat.le_refl _,
      by dsimp only; omega, ?_, ?_, ?_, ?_⟩
    · rw [if_neg hlt]
      simp [newCalls, mallocSizes, List.append_assoc]
    · intro hcon; omega
    · intro _; exact ⟨rfl, rfl⟩
    · intro i hi
      exact writeBytes_read _ _ _ _ hi

/-- C2 counterexample: a session that is `Initialized` (after a successful
init) does not stay `Initialized` across a failed re-init — `init` stores
the native result into `this.initialized` unconditionally
(`this.initialized = success`), so the failed call flips the session back to
un-initialized (and it also resets the output arena). -/
theorem C2_counterexample :
    sInit.initialized = true ∧
    c2Out = Except.ok (false, sessionAfter c2Out) ∧
    (sessionAfter c2Out).initialized = false := by
  exact ⟨rfl, rfl, rfl⟩

/-- C2 (amended): on a non-disposed session, a failed `init` is reported as
the boolean return value `false` and never as an exception, but the
session's state is not unchanged: `initialized` is set to `false` (even if
the session was `Initialized` before the failed re-init) and the output
arena is released. -/
theorem C2_init_failure (env : BasisModuleFuncs) (s : Session) (data : List Nat)
    (hd : s.disposed = false)
    (hfail : ∀ p : Nat, env.ktx2_transcoder_init s.transcoderPtr p data.length = false) :
    ∃ s', KTX2Transcoder.init env s data = Except.ok (false, s') ∧
      s'.initialized = false ∧ s'.disposed = false ∧
      s'.outputMemPtr = 0 ∧ s'.outputMemSize = 0 := by
  obtain ⟨b, s', heq, hb, hinit, hdisp, hop, hos, -⟩ := init_spec env s data hd
  rw [hfail] at hb
  subst hb
  exact ⟨s', heq, hinit, hdisp, hop, hos⟩

/-- C2 witness: the amended claim evaluated on the concrete failing re-init
of an initialized session (`envW` rejects single-byte data). -/
theorem C2_init_failure_witness :
    ∃ s', KTX2Transcoder.init envW sInit [9] = Except.ok (false, s') ∧
      s'.initialized = false ∧ s'.disposed = false ∧
      s'.outputMemPtr = 0 ∧ s'.outputMemSize = 0 :=
  C2_init_failure envW sInit [9] rfl (fun _ => rfl)

/-- C4: across `init` calls on a non-disposed session the input arena
capacity is monotonically non-decreasing (it becomes the maximum of the old
capacity and `data.length`); a reallocation — free of the old block and one
allocation of exactly `data.length` bytes — happens exactly when
`data.length` exceeds the current capacity; when `data.length` fits, pointer
and capacity are unchanged and no allocation happens; and in every case the
first `data.length` bytes of the arena afterwards are exactly `data`. -/
theorem C4_input_arena (env : BasisModuleFuncs) (s : Session) (data : List Nat)
    (hd : s.disposed = false) :
    ∃ b s', KTX2Transcoder.init env s data = Except.ok (b, s') ∧
      s.inputMemSize ≤ s'.inputMemSize ∧
      s'.inputMemSize = max s.inputMemSize data.length ∧
      mallocSizes (newCalls s s') =
        (if s.inputMemSize < data.length then [data.length] else []) ∧
      (s.inputMemSize < data.length →
        NativeCall.freeCall s.inputMemPtr ∈ newCalls s s') ∧
      (data.length ≤ s.inputMemSize →
        s'.inputMemPtr = s.inputMemPtr ∧ s'.inputMemSize = s.inputMemSize) ∧
      (∀ i, i < data.length → s'.heap (s'.inputMemPtr + i) = data.getD i 0) := by
  obtain ⟨b, s', heq, -, -, -, -, -, -, -, hmono, hmax, hmalloc, hfree, hkeep, hheap⟩ :=
    init_spec env s data hd
  exact ⟨b, s', heq, hmono, hmax, hmalloc, hfree, hkeep, hheap⟩

/-- C4 witness: the arena behaviour evaluated on a concrete re-init that
fits into the existing capacity (two bytes into a three-byte arena). -/
theorem C4_input_arena_witness :
    ∃ b s', KTX2Transcoder.init envW sInit [4, 5] = Except.ok (b, s') ∧
      sInit.inputMemSize ≤ s'.inputMemSize ∧
      s'.inputMemSize = max sInit.inputMemSize 2 ∧
      mallocSizes (newCalls sInit s') =
        (if sInit.inputMemSize < 2 then [2] else []) ∧
      (sInit.inputMemSize < 2 →
        NativeCall.freeCall sInit.inputMemPtr ∈ newCalls sInit s') ∧
      (2 ≤ sInit.inputMemSize →
        s'.inputMemPtr = sInit.inputMemPtr ∧ s'.inputMemSize = sInit.inputMemSize) ∧
      (∀ i, i < 2 → s'.heap (s'.inputMemPtr + i) = [4, 5].getD i 0) :=
  C4_input_arena envW sInit [4, 5] rfl

/-- On a non-disposed, initialized session, a failed level-info fill makes
`transcodeImageLevel` return `null` (no exception). -/
lemma transcode_fill_failed (env : BasisModuleFuncs) (s : Session) (o : TranscodeOptions)
    (hd : s.disposed = false) (hi : s.initialized = true)
    (hfill : env.ktx2_transcoder_get_image_level_info s.transcoderPtr s.iliPtr
      o.level o.layer o.face = false) :
    ∃ s', KTX2Transcoder.transcodeImageLevel env s o = Except.ok (none, s') := by
  simp [KTX2Transcoder.transcodeImageLevel, hd, hi, KTX2ImageLevelInfo.fill, hfill]

/-- Full behaviour of `transcodeImageLevel` on a non-disposed, initialized
session whose level-info fill succeeds: the call never throws, issues
exactly one native transcode invocation carrying exactly `expectedArgs`,
the output arena only grows (to the maximum of old capacity and computed
size), and on native success the returned view is exactly the computed
output size long; on native failure the result is `null`. -/
lemma transcode_run (env : BasisModuleFuncs) (s : Session) (o : TranscodeOptions)
    (hd : s.disposed = false) (hi : s.initialized = true)
    (hfill : env.ktx2_transcoder_get_image_level_info s.transcoderPtr s.iliPtr
      o.level o.layer o.face = true) :
    ∃ r s',
      KTX2Transcoder.transcodeImageLevel env s o = Except.ok (r, s') ∧
      s'.disposed = false ∧ s'.initialized = true ∧
      s'.transcoderPtr = s.transcoderPtr ∧ s'.iliPtr = s.iliPtr ∧
      s.outputMemSize ≤ s'.outputMemSize ∧
      s'.outputMemSize = max s.outputMemSize (computedOutputSize env o) ∧
      transcodeArgList (newCalls s s') = [expectedArgs env s o] ∧
      (env.ktx2_transcoder_transcode_image_level (expectedArgs env s o) = true →
        ∃ res, r = some res ∧ res.data.length = computedOutputSize env o) ∧
      (env.ktx2_transcoder_transcode_image_level (expectedArgs env s o) = false →
        r = none) := by
  simp only [KTX2Transcoder.transcodeImageLevel, hd, hi, Bool.false_eq_true, if_false,
    Bool.not_true, KTX2ImageLevelInfo.fill, hfill, logCall, callFree, callMalloc,
    if_true, Bool.not_false, computedOutputSize, expectedArgs]
  split <;> split <;> split <;> rename_i hA hB hk <;>
    first
    | (refine ⟨none, _, rfl, rfl, rfl, rfl, rfl, ?_, ?_, ?_, ?_, ?_⟩
       · dsimp only; omega
       · dsimp only; omega
       · simp [newCalls, transcodeArgList, List.append_assoc, List.drop_left]
       · simp only [Bool.not_eq_true] at hk
         intro h; simp [h] at hk
       · intro _; rfl)
    | (simp only [Bool.not_eq_true, Bool.not_eq_false] at hk
       refine ⟨_, _, rfl, rfl, rfl, rfl, rfl, ?_, ?_, ?_, ?_, ?_⟩
       · dsimp only; omega
       · dsimp only; omega
       · simp [newCalls, transcodeArgList, List.append_assoc, List.drop_left]
       · intro _
         refine ⟨_, rfl, ?_⟩
         simp
       · intro h; simp [h] at hk)

/-- Inversion: a `transcodeImageLevel` call that returned a result ran on a
non-disposed initialized session, returned a view of exactly the computed
output size, grew (never shrank) the output arena to the maximum of the old
capacity and that size, and preserved the session's lifecycle fields. -/
lemma transcode_some_inv (env : BasisModuleFuncs) (s : Session) (o : TranscodeOptions)
    (res : TranscodeResult) (s' : Session)
    (h : KTX2Transcoder.transcodeImageLevel env s o = Except.ok (some res, s')) :
    res.data.length = computedOutputSize env o ∧
    s'.outputMemSize = max s.outputMemSize (computedOutputSize env o) ∧
    s.outputMemSize ≤ s'.outputMemSize ∧
    s'.disposed = s.disposed ∧ s'.initialized = s.initialized ∧
    s'.transcoderPtr = s.transcoderPtr ∧ s'.iliPtr = s.iliPtr := by
  have hd : s.disposed = false := by
    by_contra hc
    rw [Bool.not_eq_false] at hc
    simp [KTX2Transcoder.transcodeImageLevel, hc] at h
  have hi : s.initialized = true := by
    by_contra hc
    rw [Bool.not_eq_true] at hc
    simp [KTX2Transcoder.transcodeImageLevel, hd, hc] at h
  have hfill : env.ktx2_transcoder_get_image_level_info s.transcoderPtr s.iliPtr
      o.level o.layer o.face = true := by
    by_contra hc
    rw [Bool.not_eq_true] at hc
    obtain ⟨s2, h2⟩ := transcode_fill_failed env s o hd hi hc
    rw [h2] at h
    simp at h
  obtain ⟨r, s2, heq, hd2, hi2, htp, hili, hmono, hmax, _, hokT, hokF⟩ :=
    transcode_run env s o hd hi hfill
  rw [heq] at h
  injection h with h
  injection h with h1 h2
  subst h2
  cases hb : env.ktx2_transcoder_transcode_image_level (expectedArgs env s o) with
  | false =>
    rw [hokF hb] at h1
    cases h1
  | true =>
    obtain ⟨res2, hr, hlen⟩ := hokT hb
    rw [hr] at h1
    injection h1 with h1
    subst h1
    exact ⟨hlen, hmax, hmono, by rw [hd2, hd], by rw [hi2, hi], htp, hili⟩

/-- `dispose` never raises, in any session state. -/
lemma dispose_ok (env : BasisModuleFuncs) (t : Session) :
    ∃ t', KTX2Transcoder.dispose env t = Except.ok ((), t') := by
  by_cases h : t.disposed
  · exact ⟨t, by simp [KTX2Transcoder.dispose, h]⟩
  · simp only [Bool.not_eq_true] at h
    simp only [KTX2Transcoder.dispose, h, Bool.false_eq_true, if_false]
    exact ⟨_, rfl⟩

/-- `getImageLevelInfo` on a non-disposed initialized session never raises,
and surfaces a native fill failure as a `null` result. -/
lemma getImageLevelInfo_ok (env : BasisModuleFuncs) (s : Session) (l y f : Nat)
    (hd : s.disposed = false) (hi : s.initialized = true) :
    ∃ r s', KTX2Transcoder.getImageLevelInfo env s l y f = Except.ok (r, s') ∧
      (env.ktx2_transcoder_get_image_level_info s.transcoderPtr s.iliPtr l y f = false →
        r = none) := by
  simp only [KTX2Transcoder.getImageLevelInfo, hd, hi, Bool.false_eq_true, if_false,
    Bool.not_true, KTX2ImageLevelInfo.fill, logCall]
  by_cases hf : env.ktx2_transcoder_get_image_level_info s.transcoderPtr s.iliPtr l y f
  · rw [hf]
    exact ⟨_, _, rfl, fun hcon => absurd hcon (by decide)⟩
  · simp only [Bool.not_eq_true] at hf
    rw [hf]
    exact ⟨none, _, rfl, fun _ => rfl⟩

/-- `transcodeImageLevel` on a non-disposed initialized session never
raises, whether or not the native fill succeeds. -/
lemma transcode_ok_any (env : BasisModuleFuncs) (s : Session) (o : TranscodeOptions)
    (hd : s.disposed = false) (hi : s.initialized = true) :
    ∃ r s', KTX2Transcoder.transcodeImageLevel env s o = Except.ok (r, s') := by
  by_cases hf : env.ktx2_transcoder_get_image_level_info s.transcoderPtr s.iliPtr
    o.level o.layer o.face
  · obtain ⟨r, s', heq, -⟩ := transcode_run env s o hd hi hf
    exact ⟨r, s', heq⟩
  · simp only [Bool.not_eq_true] at hf
    obtain ⟨s', heq⟩ := transcode_fill_failed env s o hd hi hf
    exact ⟨none, s', heq⟩

/-- C1 counterexample: a session that was successfully init-ed but on which
`startTranscoding()` was never called (its call log shows zero native
start-transcoding invocations) has its `transcodeImageLevel` call forwarded
to the native transcode entry point (one native transcode invocation in the
call's log delta) and returns a result instead of being rejected as a
usage-precondition violation. -/
theorem C1_counterexample :
    sInit.initialized = true ∧
    startCallCount sInit.calls = 0 ∧
    ∃ res s', c1Out = Except.ok (some res, s') ∧
      (transcodeArgList (newCalls sInit s')).length = 1 :=
  ⟨rfl, rfl, resultAfterT c1Out, sessionAfterT c1Out, rfl, rfl⟩

/-- C1 (amended): `transcodeImageLevel` checks only the disposed and
initialized flags; the wrapper records nothing about `startTranscoding`, so
on any non-disposed, initialized session the call is not rejected — it is
forwarded to the native transcode entry point (exactly one native transcode
invocation, given that the level-info fill succeeds), whether or not a
successful `startTranscoding()` call ever happened. -/
theorem C1_no_start_gate (env : BasisModuleFuncs) (s : Session) (o : TranscodeOptions)
    (hd : s.disposed = false) (hi : s.initialized = true)
    (hfill : env.ktx2_transcoder_get_image_level_info s.transcoderPtr s.iliPtr
      o.level o.layer o.face = true) :
    ∃ r s', KTX2Transcoder.transcodeImageLevel env s o = Except.ok (r, s') ∧
      (transcodeArgList (newCalls s s')).length = 1 := by
  obtain ⟨r, s', heq, -, -, -, -, -, -, hlist, -, -⟩ := transcode_run env s o hd hi hfill
  exact ⟨r, s', heq, by rw [hlist]; rfl⟩

/-- C1 witness: the amended claim evaluated on the concrete never-started
session. -/
theorem C1_no_start_gate_witness :
    ∃ r s', KTX2Transcoder.transcodeImageLevel envW sInit { format := 13 } =
        Except.ok (r, s') ∧
      (transcodeArgList (newCalls sInit s')).length = 1 :=
  C1_no_start_gate envW sInit { format := 13 } rfl rfl rfl

/-- C5: for two consecutive successful `transcodeImageLevel` calls whose
output sizes shrink, each returned view's length is exactly that call's
computed output size, and the output arena capacity never shrinks: after
the second call it is still at least the first call's size. -/
theorem C5_output_arena_no_shrink (env : BasisModuleFuncs) (s : Session)
    (o1 o2 : TranscodeOptions) (res1 res2 : TranscodeResult) (s1 s2 : Session)
    (h1 : KTX2Transcoder.transcodeImageLevel env s o1 = Except.ok (some res1, s1))
    (h2 : KTX2Transcoder.transcodeImageLevel env s1 o2 = Except.ok (some res2, s2))
    (hshrink : res2.data.length < res1.data.length) :
    res1.data.length = computedOutputSize env o1 ∧
    res2.data.length = computedOutputSize env o2 ∧
    res1.data.length ≤ s1.outputMemSize ∧
    s1.outputMemSize ≤ s2.outputMemSize ∧
    res1.data.length ≤ s2.outputMemSize := by
  obtain ⟨e1, m1, mo1, -, -, -, -⟩ := transcode_some_inv env s o1 res1 s1 h1
  obtain ⟨e2, m2, mo2, -, -, -, -⟩ := transcode_some_inv env s1 o2 res2 s2 h2
  have a1 : computedOutputSize env o1 ≤ s1.outputMemSize := by
    rw [m1]; exact le_max_right _ _
  have a2 : s1.outputMemSize ≤ s2.outputMemSize := by
    rw [m2]; exact le_max_left _ _
  exact ⟨e1, e2, by omega, a2, by omega⟩

/-- C5 witness: the concrete 100-byte (level 0) then 25-byte (level 1)
transcode pair on `envW`. -/
theorem C5_output_arena_no_shrink_witness :
    (resultAfterT c1Out).data.length = computedOutputSize envW { format := 13 } ∧
    (resultAfterT c5Out2).data.length =
      computedOutputSize envW { format := 13, level := 1 } ∧
    (resultAfterT c1Out).data.length ≤ (sessionAfterT c1Out).outputMemSize ∧
    (sessionAfterT c1Out).outputMemSize ≤ (sessionAfterT c5Out2).outputMemSize ∧
    (resultAfterT c1Out).data.length ≤ (sessionAfterT c5Out2).outputMemSize :=
  C5_output_arena_no_shrink envW sInit { format := 13 } { format := 13, level := 1 }
    (resultAfterT c1Out) (resultAfterT c5Out2) (sessionAfterT c1Out) (sessionAfterT c5Out2)
    rfl rfl (by decide)

/-- C6: the native transcode invocation issued by `transcodeImageLevel`
carries branch-dependent arguments chosen by the native is-uncompressed
predicate — for uncompressed formats the block-or-pixel count is
`origWidth * origHeight` and the row-pitch and row-count arguments are
`origWidth` and `origHeight`; for compressed formats the block count is the
output byte size divided by bytes-per-block and the row-pitch and row-count
arguments are both `0` — and in both branches the trailing three arguments
are `-1`, `-1`, `0`. -/
theorem C6_transcode_call_args (env : BasisModuleFuncs) (s : Session) (o : TranscodeOptions)
    (hd : s.disposed = false) (hi : s.initialized = true)
    (hfill : env.ktx2_transcoder_get_image_level_info s.transcoderPtr s.iliPtr
      o.level o.layer o.face = true) :
    ∃ r s' a,
      KTX2Transcoder.transcodeImageLevel env s o = Except.ok (r, s') ∧
      transcodeArgList (newCalls s s') = [a] ∧
      a.channel0 = -1 ∧ a.channel1 = -1 ∧ a.statePtr = 0 ∧
      (env.basis_transcoder_format_is_uncompressed o.format = true →
        a.outputBlocksBufSizeInBlocksOrPixels =
          ((env.levelInfoWords o.level o.layer o.face 3 : Nat) : ℚ) *
            ((env.levelInfoWords o.level o.layer o.face 4 : Nat) : ℚ) ∧
        a.outputRowPitchInBlocksOrPixels = env.levelInfoWords o.level o.layer o.face 3 ∧
        a.outputRowsInPixels = env.levelInfoWords o.level o.layer o.face 4) ∧
      (env.basis_transcoder_format_is_uncompressed o.format = false →
        a.outputBlocksBufSizeInBlocksOrPixels =
          ((computedOutputSize env o : Nat) : ℚ) /
            ((env.basis_get_bytes_per_block_or_pixel o.format : Nat) : ℚ) ∧
        a.outputRowPitchInBlocksOrPixels = 0 ∧
        a.outputRowsInPixels = 0) := by
  obtain ⟨r, s', heq, -, -, -, -, -, -, hlist, -, -⟩ := transcode_run env s o hd hi hfill
  refine ⟨r, s', expectedArgs env s o, heq, hlist, ?_, ?_, ?_, ?_, ?_⟩
  · simp only [expectedArgs]; split <;> rfl
  · simp only [expectedArgs]; split <;> rfl
  · simp only [expectedArgs]; split <;> rfl
  · intro hu
    simp [expectedArgs, computedOutputSize, hu]
  · intro hu
    simp [expectedArgs, computedOutputSize, hu]

/-- C6 witness: the compressed branch evaluated on the concrete `envW`
session (8 bytes per block). -/
theorem C6_transcode_call_args_witness :
    ∃ r s' a,
      KTX2Transcoder.transcodeImageLevel envW sInit { format := 13 } = Except.ok (r, s') ∧
      transcodeArgList (newCalls sInit s') = [a] ∧
      a.channel0 = -1 ∧ a.channel1 = -1 ∧ a.statePtr = 0 ∧
      (envW.basis_transcoder_format_is_uncompressed 13 = true →
        a.outputBlocksBufSizeInBlocksOrPixels =
          ((envW.levelInfoWords 0 0 0 3 : Nat) : ℚ) * ((envW.levelInfoWords 0 0 0 4 : Nat) : ℚ) ∧
        a.outputRowPitchInBlocksOrPixels = envW.levelInfoWords 0 0 0 3 ∧
        a.outputRowsInPixels = envW.levelInfoWords 0 0 0 4) ∧
      (envW.basis_transcoder_format_is_uncompressed 13 = false →
        a.outputBlocksBufSizeInBlocksOrPixels =
          ((computedOutputSize envW { format := 13 } : Nat) : ℚ) /
            ((envW.basis_get_bytes_per_block_or_pixel 13 : Nat) : ℚ) ∧
        a.outputRowPitchInBlocksOrPixels = 0 ∧
        a.outputRowsInPixels = 0) :=
  C6_transcode_call_args envW sInit { format := 13 } rfl rfl rfl

/-- C7: on a non-disposed, initialized session every operation surfaces
native-reported failures as boolean/null results and never throws: `init`,
`getImageLevelInfo`, `startTranscoding` and `transcodeImageLevel` always
return (with a `null` info result when the native fill reports failure);
`dispose` never raises in any state, even redundantly; and an exception is
possible only for state-machine misuse — whenever any of the four guarded
operations throws, the session was disposed or (for the three
init-guarded ones) not initialized. -/
theorem C7_error_policy (env : BasisModuleFuncs) (s : Session)
    (hd : s.disposed = false) (hi : s.initialized = true) :
    (∀ data, ∃ b s', KTX2Transcoder.init env s data = Except.ok (b, s')) ∧
    (∀ l y f, ∃ r s', KTX2Transcoder.getImageLevelInfo env s l y f = Except.ok (r, s') ∧
      (env.ktx2_transcoder_get_image_level_info s.transcoderPtr s.iliPtr l y f = false →
        r = none)) ∧
    (∃ b s', KTX2Transcoder.startTranscoding env s = Except.ok (b, s')) ∧
    (∀ o, ∃ r s', KTX2Transcoder.transcodeImageLevel env s o = Except.ok (r, s')) ∧
    (∀ t : Session, ∃ t', KTX2Transcoder.dispose env t = Except.ok ((), t')) ∧
    (∀ t data e, KTX2Transcoder.init env t data = Except.error e → t.disposed = true) ∧
    (∀ t l y f e, KTX2Transcoder.getImageLevelInfo env t l y f = Except.error e →
      t.disposed = true ∨ t.initialized = false) ∧
    (∀ t e, KTX2Transcoder.startTranscoding env t = Except.error e →
      t.disposed = true ∨ t.initialized = false) ∧
    (∀ t o e, KTX2Transcoder.transcodeImageLevel env t o = Except.error e →
      t.disposed = true ∨ t.initialized = false) := by
  refine ⟨?_, ?_, ?_, ?_, dispose_ok env, ?_, ?_, ?_, ?_⟩
  · intro data
    obtain ⟨b, s', heq, -⟩ := init_spec env s data hd
    exact ⟨b, s', heq⟩
  · intro l y f
    exact getImageLevelInfo_ok env s l y f hd hi
  · simp only [KTX2Transcoder.startTranscoding, hd, hi, Bool.false_eq_true, if_false,
      Bool.not_true]
    exact ⟨_, _, rfl⟩
  · intro o
    exact transcode_ok_any env s o hd hi
  · intro t data e h
    by_cases d : t.disposed
    · exact d
    · simp only [Bool.not_eq_true] at d
      obtain ⟨b, s', heq, -⟩ := init_spec env t data d
      rw [heq] at h
      cases h
  · intro t l y f e h
    by_cases d : t.disposed
    · exact Or.inl d
    · simp only [Bool.not_eq_true] at d
      by_cases i : t.initialized
      · obtain ⟨r, s', heq, -⟩ := getImageLevelInfo_ok env t l y f d i
        rw [heq] at h
        cases h
      · exact Or.inr (by simpa using i)
  · intro t e h
    by_cases d : t.disposed
    · exact Or.inl d
    · simp only [Bool.not_eq_true] at d
      by_cases i : t.initialized
      · simp only [KTX2Transcoder.startTranscoding, d, i, Bool.false_eq_true, if_false,
          Bool.not_true] at h
        cases h
      · exact Or.inr (by simpa using i)
  · intro t o e h
    by_cases d : t.disposed
    · exact Or.inl d
    · simp only [Bool.not_eq_true] at d
      by_cases i : t.initialized
      · obtain ⟨r, s', heq⟩ := transcode_ok_any env t o d i
        rw [heq] at h
        cases h
      · exact Or.inr (by simpa using i)

/-- C7 witness: the never-throwing behaviour evaluated on the concrete
initialized session — `startTranscoding`, a transcode call, and a
(redundant-safe) dispose all return without raising. -/
theorem C7_error_policy_witness :
    (∃ b s', KTX2Transcoder.startTranscoding envW sInit = Except.ok (b, s')) ∧
    (∃ r s', KTX2Transcoder.transcodeImageLevel envW sInit { format := 13 } =
      Except.ok (r, s')) ∧
    (∃ t', KTX2Transcoder.dispose envW sInit = Except.ok ((), t')) :=
  ⟨(C7_error_policy envW sInit rfl rfl).2.2.1,
   (C7_error_policy envW sInit rfl rfl).2.2.2.1 { format := 13 },
   (C7_error_policy envW sInit rfl rfl).2.2.2.2.1 sInit⟩
